import Mathlib

/-!
Verification of the gala-trading-bot position-lifecycle and buyback core.

Shallow embedding of:
  * `src/utils/pnl.js` (`calculatePnLPercentage`, `shouldBuyback`,
    `calculateFinalPnL`),
  * the `TradingService` in `src/unnamed/part_014` (second class, lines
    790-2540): `getQuote`, `executeBuyback`, `checkPositionForBuyback`,
    `monitorOpenPositions`.

JavaScript numbers are modelled as rationals (`ℚ`).  A JavaScript falsy
check such as `!entryPrice` is modelled as an equality test with `0`
(the only falsy rational input).  Thrown exceptions are modelled with
`Except String`.  Calls to external collaborators (the GSwap network
client, the database repository) are modelled by explicit effect lists:
a function's returned `List Effect` records, in order, the network and
repository calls it issued.  External collaborators themselves
(the price oracle, the swap executor, the quoting client, the loaded
position list) are parameters of the embedded functions, supplied as
plain functions or `Except` values, mirroring the injected services of
the source.
-/

set_option linter.unusedVariables false

namespace GalaBot

/-- Buyback decision tags produced by `shouldBuyback` in `src/utils/pnl.js`. -/
inductive Reason
  | PROFIT_TARGET
  | STOP_LOSS
  | HOLD
deriving DecidableEq

/-- Position status values of the `open_positions` table
(`OPEN`, `CLOSED`, `FAILED`). -/
inductive PositionStatus
  | OPEN
  | CLOSED
  | FAILED
deriving DecidableEq

/-- A row of the `open_positions` table, as destructured by
`checkPositionForBuyback` and `executeBuyback` in `src/unnamed/part_014`. -/
structure Position where
  id : ℕ
  strategy : String
  symbol : String
  token_symbol : String
  gala_symbol : String
  entry_price : ℚ
  entry_amount : ℚ
  token_amount : ℚ
  profit_threshold : ℚ
  loss_threshold : ℚ
  status : PositionStatus
  retry_count : ℕ
deriving DecidableEq

/-- External calls issued by the embedded `TradingService` methods.
`quoteNetworkCall` is `gSwap.quoting.quoteExactInput`; the three
repository constructors are the corresponding `DatabaseService` calls.
`updatePositionRetry` exists so that its absence from an effect list is
a statable fact (the source never calls it). -/
inductive Effect
  | quoteNetworkCall (fromToken toToken : String) (amount : ℚ)
  | swapExecCall (fromToken toToken : String) (amount : ℚ)
  | closePositionCall (positionId : ℕ) (closeTradeId : Option ℕ) (notes : String)
  | markPositionFailedCall (positionId : ℕ) (reason : String)
  | updatePositionRetryCall (positionId : ℕ) (retryCount : ℕ) (note : String)
deriving DecidableEq

/-- `calculatePnLPercentage` from `src/utils/pnl.js` lines 12-22.
`!entryPrice || entryPrice <= 0` throws, then
`!currentPrice || currentPrice < 0` throws; note that `!currentPrice`
is true for `currentPrice = 0`. -/
def calculatePnLPercentage (entryPrice currentPrice : ℚ) : Except String ℚ :=
  if entryPrice = 0 ∨ entryPrice ≤ 0 then
    .error "Entry price must be positive"
  else if currentPrice = 0 ∨ currentPrice < 0 then
    .error "Current price must be non-negative"
  else
    .ok ((currentPrice - entryPrice) / entryPrice * 100)

/-- Result of `shouldBuyback` (the `description` display string is not
modelled). -/
structure BuybackDecision where
  shouldBuy : Bool
  reason : Reason
deriving DecidableEq

/-- `shouldBuyback` from `src/utils/pnl.js` lines 31-53: profit target
first with `>=`, then stop loss with `<=`, else hold. -/
def shouldBuyback (pnlPercentage profitThreshold lossThreshold : ℚ) : BuybackDecision :=
  if pnlPercentage ≥ profitThreshold then
    { shouldBuy := true, reason := .PROFIT_TARGET }
  else if pnlPercentage ≤ lossThreshold then
    { shouldBuy := true, reason := .STOP_LOSS }
  else
    { shouldBuy := false, reason := .HOLD }

/-- Result record of `calculateFinalPnL`. -/
structure FinalPnL where
  initialAmount : ℚ
  finalAmount : ℚ
  absolutePnL : ℚ
  percentagePnL : ℚ
  isProfit : Bool
deriving DecidableEq

/-- `calculateFinalPnL` from `src/utils/pnl.js` lines 87-106. -/
def calculateFinalPnL (initialGalaAmount finalGalaAmount : ℚ) : Except String FinalPnL :=
  if initialGalaAmount = 0 ∨ initialGalaAmount ≤ 0 then
    .error "Initial GALA amount must be positive"
  else if finalGalaAmount = 0 ∨ finalGalaAmount < 0 then
    .error "Final GALA amount must be non-negative"
  else
    let absolutePnL := finalGalaAmount - initialGalaAmount
    .ok { initialAmount := initialGalaAmount
          finalAmount := finalGalaAmount
          absolutePnL := absolutePnL
          percentagePnL := absolutePnL / initialGalaAmount * 100
          isProfit := decide (absolutePnL > 0) }

/-- The base-asset token identifier hard-coded in `executeBuyback`. -/
def galaToken : String := "GALA|Unit|none|none"

/-- Result of a quote request, `getQuote` in `src/unnamed/part_014`
lines 1156-1193 (success and failure object shapes merged with
`Option` fields). -/
structure QuoteResult where
  success : Bool
  outTokenAmount : Option ℚ
  error : Option String
deriving DecidableEq

/-- `getQuote` from `src/unnamed/part_014` lines 1156-1193.
`gSwapInitialized` models `this.gSwap`; `quoting` models the network
client `gSwap.quoting.quoteExactInput` (an `.error` value is a rejected
promise, caught by the source's `catch`).  The effect list records the
network call; it is issued for every token pair, with no same-asset
guard. -/
def getQuote (gSwapInitialized : Bool)
    (quoting : String → String → ℚ → Except String ℚ)
    (fromToken toToken : String) (amount : ℚ) : QuoteResult × List Effect :=
  if gSwapInitialized = false then
    ({ success := false, outTokenAmount := none,
       error := some "GSwap not initialized" }, [])
  else
    match quoting fromToken toToken amount with
    | .ok outAmount =>
        ({ success := true, outTokenAmount := some outAmount, error := none },
         [Effect.quoteNetworkCall fromToken toToken amount])
    | .error e =>
        ({ success := false, outTokenAmount := none, error := some e },
         [Effect.quoteNetworkCall fromToken toToken amount])

/-- Outcome of `this.executeSwap` as consumed by `executeBuyback`:
`success`, `dryRun`, and the two places a final amount is read from
(`expectedOutput` in dry-run mode, `quote.quote.outTokenAmount` in live
mode), plus the error message of a failed swap. -/
structure SwapResult where
  success : Bool
  dryRun : Bool
  expectedOutput : ℚ
  quoteOutTokenAmount : ℚ
  error : String
deriving DecidableEq

/-- Outcome record returned by `executeBuyback` (`tradeId` is always
`null` in the source and is not modelled). -/
structure BuybackOutcome where
  success : Bool
  positionId : ℕ
  finalGalaAmount : Option ℚ
  error : Option String
deriving DecidableEq

/-- `executeBuyback` from `src/unnamed/part_014` lines 2448-2537.
`swapExec` models `this.executeSwap` (which never throws: it returns a
`success:false` object on failure).  The swap is attempted
unconditionally — the source performs no `position.status` check.  On
swap failure the `catch` block calls
`databaseService.markPositionFailed` immediately; on success it calls
`databaseService.closePosition(positionId, null, notes)`.  The
notification step is fire-and-forget and has no modelled effect. -/
def executeBuyback (swapExec : String → String → ℚ → SwapResult)
    (position : Position) (currentPrice : ℚ) : BuybackOutcome × List Effect :=
  let swapResult := swapExec position.gala_symbol galaToken position.token_amount
  let swapEffect := Effect.swapExecCall position.gala_symbol galaToken position.token_amount
  if swapResult.success then
    let finalGalaAmount :=
      if swapResult.dryRun then swapResult.expectedOutput
      else swapResult.quoteOutTokenAmount
    let closeNotes :=
      if swapResult.dryRun then "DRY RUN: Buyback completed"
      else "Buyback completed"
    ({ success := true, positionId := position.id,
       finalGalaAmount := some finalGalaAmount, error := none },
     [swapEffect, Effect.closePositionCall position.id none closeNotes])
  else
    let msg := "Swap execution failed: " ++ swapResult.error
    ({ success := false, positionId := position.id,
       finalGalaAmount := none, error := some msg },
     [swapEffect,
      Effect.markPositionFailedCall position.id ("Buyback failed: " ++ msg)])

/-- Return value of `priceOracleService.getCurrentPrice` (which never
throws: it returns a `success:false` object on any error). -/
structure PriceData where
  success : Bool
  price : ℚ
  error : String
deriving DecidableEq

/-- Per-position result record built by `checkPositionForBuyback`
(display-only fields are not modelled; `decision` is `none` on the
error path, where the source's record carries no `decision` field). -/
structure CheckResult where
  positionId : ℕ
  decision : Option Reason
  pnlPercentage : Option ℚ
  buybackExecuted : Bool
  buybackFailed : Bool
  error : Option String
  finalGalaAmount : Option ℚ
  finalPnL : Option FinalPnL
deriving DecidableEq

/-- The record returned by the outer `catch` of
`checkPositionForBuyback`. -/
def checkFailureResult (position : Position) (msg : String) : CheckResult :=
  { positionId := position.id, decision := none, pnlPercentage := none,
    buybackExecuted := false, buybackFailed := true, error := some msg,
    finalGalaAmount := none, finalPnL := none }

/-- `checkPositionForBuyback` from `src/unnamed/part_014` lines
2354-2441.  Fetches the price, computes the PnL, decides via
`shouldBuyback(pnl, profit_threshold*100, loss_threshold*100)`, and on
`shouldBuy` runs `executeBuyback`, whose repository/network effects are
the returned effect list.  A price-fetch failure or a
`calculatePnLPercentage` throw lands in the outer `catch`, which
returns `checkFailureResult` with no effect issued.  On buyback success
the source sets `buybackExecuted := true` and then computes
`calculateFinalPnL`, whose throw is caught by the inner `catch` and
additionally sets `buybackFailed := true`. -/
def checkPositionForBuyback (oracle : String → PriceData)
    (swapExec : String → String → ℚ → SwapResult)
    (position : Position) : CheckResult × List Effect :=
  let priceData := oracle position.gala_symbol
  if priceData.success = false then
    (checkFailureResult position
      ("Failed to get current price: " ++ priceData.error), [])
  else
    match calculatePnLPercentage position.entry_price priceData.price with
    | .error e => (checkFailureResult position e, [])
    | .ok pnlPercentage =>
      let buybackDecision :=
        shouldBuyback pnlPercentage
          (position.profit_threshold * 100) (position.loss_threshold * 100)
      let base : CheckResult :=
        { positionId := position.id, decision := some buybackDecision.reason,
          pnlPercentage := some pnlPercentage, buybackExecuted := false,
          buybackFailed := false, error := none, finalGalaAmount := none,
          finalPnL := none }
      if buybackDecision.shouldBuy then
        let buybackRun := executeBuyback swapExec position priceData.price
        let buybackResult := buybackRun.1
        if buybackResult.success then
          let finalGala := buybackResult.finalGalaAmount.getD 0
          match calculateFinalPnL position.entry_amount finalGala with
          | .ok finalPnL =>
              ({ base with
                  buybackExecuted := true
                  finalGalaAmount := some finalGala
                  finalPnL := some finalPnL }, buybackRun.2)
          | .error e =>
              ({ base with
                  buybackExecuted := true
                  finalGalaAmount := some finalGala
                  buybackFailed := true
                  error := some e }, buybackRun.2)
        else
          ({ base with buybackFailed := true, error := buybackResult.error },
           buybackRun.2)
      else
        (base, [])

/-- Summary object returned by `monitorOpenPositions`. -/
structure MonitorSummary where
  success : Bool
  error : Option String
  message : Option String
  positionsChecked : ℕ
  buybacksExecuted : ℕ
  buybacksFailed : ℕ
  results : List CheckResult
deriving DecidableEq

/-- Accumulator of the `for (const position of openPositions)` loop. -/
structure MonitorAcc where
  results : List CheckResult
  executed : ℕ
  failed : ℕ
deriving DecidableEq

/-- The error record pushed by the loop's `catch` branch. -/
def monitorErrorRecord (position : Position) (msg : String) : CheckResult :=
  { positionId := position.id, decision := none, pnlPercentage := none,
    buybackExecuted := false, buybackFailed := true, error := some msg,
    finalGalaAmount := none, finalPnL := none }

/-- One iteration of the monitoring loop in `monitorOpenPositions`
(`src/unnamed/part_014` lines 2300-2321): the per-position `try` pushes
the check result and counts it (`buybackExecuted` first, `else if
buybackFailed`), the `catch` pushes an error record and counts a
failure. -/
def monitorStep (check : Position → Except String (CheckResult × List Effect))
    (acc : MonitorAcc) (position : Position) : MonitorAcc :=
  match check position with
  | .ok checkRun =>
      { results := acc.results ++ [checkRun.1],
        executed := acc.executed + (if checkRun.1.buybackExecuted then 1 else 0),
        failed := acc.failed + (if checkRun.1.buybackExecuted then 0 else if checkRun.1.buybackFailed then 1 else 0) }
  | .error e =>
      { results := acc.results ++ [monitorErrorRecord position e],
        executed := acc.executed,
        failed := acc.failed + 1 }

/-- `monitorOpenPositions` from `src/unnamed/part_014` lines 2270-2345.
`loadResult` models `this.getDatabaseService()` followed by
`databaseService.getOpenPositions(strategy)` (either throw lands in the
outer `catch`); `priceOracleAvailable` models
`ServiceManager.get('priceOracle')` being non-null — when it is null
the source throws, which the outer `catch` converts into the
`success:false` summary; `check` models the awaited
`this.checkPositionForBuyback` call, `.error` being a thrown
exception caught by the per-position `catch`.  The whole body is
wrapped in `try`/`catch`, so the embedded function is total. -/
def monitorOpenPositions (loadResult : Except String (List Position))
    (priceOracleAvailable : Bool)
    (check : Position → Except String (CheckResult × List Effect)) :
    MonitorSummary :=
  match loadResult with
  | .error e =>
      { success := false, error := some e, message := none,
        positionsChecked := 0, buybacksExecuted := 0, buybacksFailed := 0,
        results := [] }
  | .ok openPositions =>
      if openPositions.isEmpty then
        { success := true, error := none,
          message := some "No open positions to monitor",
          positionsChecked := 0, buybacksExecuted := 0, buybacksFailed := 0,
          results := [] }
      else if priceOracleAvailable = false then
        { success := false,
          error := some "PriceOracleService not available for position monitoring",
          message := none, positionsChecked := 0, buybacksExecuted := 0,
          buybacksFailed := 0, results := [] }
      else
        let acc := openPositions.foldl (monitorStep check) ⟨[], 0, 0⟩
        { success := true, error := none, message := none,
          positionsChecked := openPositions.length,
          buybacksExecuted := acc.executed, buybacksFailed := acc.failed,
          results := acc.results }

/-- The reference buyback decision, written from the specification's
wording (§4.1 of the spec): with
`pnl = (currentPrice - entryPrice) / entryPrice * 100` and thresholds
stored as fractions, the decision is `PROFIT_TARGET` when
`pnl ≥ profitThreshold × 100` (checked first, inclusive), else
`STOP_LOSS` when `pnl ≤ lossThreshold × 100` (inclusive), else `HOLD`.
Used only to compare against the decision computed by the source
embedding. -/
def referenceBuybackDecision (entryPrice currentPrice profitThreshold lossThreshold : ℚ) : Reason :=
  if (currentPrice - entryPrice) / entryPrice * 100 ≥ profitThreshold * 100 then
    .PROFIT_TARGET
  else if (currentPrice - entryPrice) / entryPrice * 100 ≤ lossThreshold * 100 then
    .STOP_LOSS
  else
    .HOLD

/-! ### Concrete fixtures used by witnesses and counterexamples -/

/-- An `OPEN` position with the spec's running numbers: entry price
0.05 GALA per token, 100 GALA spent for 2000 tokens, default
thresholds +5 % / -2 % stored as fractions, no retries yet. -/
def samplePosition : Position :=
  { id := 7, strategy := "dca", symbol := "GALA/GUSDC",
    token_symbol := "GUSDC", gala_symbol := "GUSDC|Unit|none|none",
    entry_price := 1/20, entry_amount := 100, token_amount := 2000,
    profit_threshold := 1/20, loss_threshold := -(1/50),
    status := .OPEN, retry_count := 0 }

/-- The same position already `CLOSED`. -/
def closedPosition : Position :=
  { samplePosition with id := 8, status := .CLOSED }

/-- A swap executor whose swap always fails. -/
def failingSwap : String → String → ℚ → SwapResult :=
  fun _ _ _ =>
    { success := false, dryRun := true, expectedOutput := 0,
      quoteOutTokenAmount := 0, error := "Insufficient liquidity" }

/-- A price oracle whose fetch always fails. -/
def failOracle : String → PriceData :=
  fun _ => { success := false, price := 0, error := "HTTP 500" }

/-- A price oracle that successfully reports a price of zero. -/
def zeroPriceOracle : String → PriceData :=
  fun _ => { success := true, price := 0, error := "" }

/-- A price oracle that successfully reports 0.053 GALA per token
(a +6 % move from `samplePosition`). -/
def profitOracle : String → PriceData :=
  fun _ => { success := true, price := 53/1000, error := "" }

/-- A quoting client that succeeds on every pair, returning 95 % of the
input amount. -/
def sampleQuoting : String → String → ℚ → Except String ℚ :=
  fun _ _ amount => .ok (amount * 19 / 20)

/-- A per-position checker for paths on which it is never invoked. -/
def unreachedCheck : Position → Except String (CheckResult × List Effect) :=
  fun _ => .error "unused"

/-! ### Analysis of the monitoring loop -/

/-- Whether a per-position check run counts towards `buybacksExecuted`
in the loop of `monitorOpenPositions`. -/
def isExecutedCheck : Except String (CheckResult × List Effect) → Bool
  | .ok checkRun => checkRun.1.buybackExecuted
  | .error _ => false

/-- Whether a per-position check run counts towards `buybacksFailed`
in the loop of `monitorOpenPositions` (a thrown exception always does;
a returned result does when `buybackFailed` is set and
`buybackExecuted` is not). -/
def isFailedCheck : Except String (CheckResult × List Effect) → Bool
  | .ok checkRun => !checkRun.1.buybackExecuted && checkRun.1.buybackFailed
  | .error _ => true

/-- The result record the loop pushes for one position: the check's own
result, or the `catch` branch's error record. -/
def checkRecord (check : Position → Except String (CheckResult × List Effect))
    (position : Position) : CheckResult :=
  match check position with
  | .ok checkRun => checkRun.1
  | .error e => monitorErrorRecord position e

lemma monitorStep_results (check) (acc : MonitorAcc) (p : Position) :
    (monitorStep check acc p).results = acc.results ++ [checkRecord check p] := by
  unfold monitorStep checkRecord
  cases check p <;> rfl

lemma monitorStep_executed (check) (acc : MonitorAcc) (p : Position) :
    (monitorStep check acc p).executed =
      acc.executed + (if isExecutedCheck (check p) then 1 else 0) := by
  unfold monitorStep isExecutedCheck
  cases h : check p with
  | error e => rfl
  | ok checkRun => cases checkRun.1.buybackExecuted <;> rfl

lemma monitorStep_failed (check) (acc : MonitorAcc) (p : Position) :
    (monitorStep check acc p).failed =
      acc.failed + (if isFailedCheck (check p) then 1 else 0) := by
  unfold monitorStep isFailedCheck
  cases h : check p with
  | error e => rfl
  | ok checkRun =>
      cases hb : checkRun.1.buybackExecuted <;>
        cases hf : checkRun.1.buybackFailed <;> simp [hb, hf]

lemma monitorFold_results (check) (ps : List Position) (acc : MonitorAcc) :
    (ps.foldl (monitorStep check) acc).results =
      acc.results ++ ps.map (checkRecord check) := by
  induction ps generalizing acc with
  | nil => simp
  | cons p ps ih =>
      rw [List.foldl_cons, ih, List.map_cons, monitorStep_results]
      simp

lemma monitorFold_executed (check) (ps : List Position) (acc : MonitorAcc) :
    (ps.foldl (monitorStep check) acc).executed =
      acc.executed + ps.countP (fun p => isExecutedCheck (check p)) := by
  induction ps generalizing acc with
  | nil => simp
  | cons p ps ih =>
      rw [List.foldl_cons, ih, monitorStep_executed, List.countP_cons]
      omega

lemma monitorFold_failed (check) (ps : List Position) (acc : MonitorAcc) :
    (ps.foldl (monitorStep check) acc).failed =
      acc.failed + ps.countP (fun p => isFailedCheck (check p)) := by
  induction ps generalizing acc with
  | nil => simp
  | cons p ps ih =>
      rw [List.foldl_cons, ih, monitorStep_failed, List.countP_cons]
      omega

lemma countP_pair_le_length {α : Type} (p q : α → Bool)
    (h : ∀ x, p x = true → q x = false) (l : List α) :
    l.countP p + l.countP q ≤ l.length := by
  induction l with
  | nil => simp
  | cons a l ih =>
      rw [List.countP_cons, List.countP_cons, List.length_cons]
      by_cases hp : p a = true
      · have hq := h a hp
        simp [hp, hq]
        omega
      · simp only [Bool.not_eq_true] at hp
        by_cases hq : q a = true
        · simp [hp, hq]
          omega
        · simp only [Bool.not_eq_true] at hq
          simp [hp, hq]
          omega

/-! ### Claim theorems -/

/-- C1: the claim describes a bounded-retry policy (updateRetry while
`retryCount + 1 < 5`, markFailed only at the maximum), but the source's
`executeBuyback` contains no retry logic at all: with `retry_count = 0`
(so `retry_count + 1 = 1 < 5`) and a failing exit swap, its effect list
is exactly the swap attempt followed by `markPositionFailed` — the
position is marked `FAILED` immediately and `updatePositionRetry` is
never called. -/
theorem executeBuyback_failed_swap_marks_failed_below_max :
    samplePosition.retry_count + 1 < 5 ∧
    (executeBuyback failingSwap samplePosition (1/20)).2 =
      [Effect.swapExecCall "GUSDC|Unit|none|none" "GALA|Unit|none|none" 2000,
       Effect.markPositionFailedCall 7
         "Buyback failed: Swap execution failed: Insufficient liquidity"] := by
  constructor
  · decide
  · rfl

/-- C2 counterexample: invoking `executeBuyback` on an
already-`CLOSED` position is not rejected with `InvalidState` and does
mutate the position record: the first effect is the exit-swap attempt,
and on swap failure the repository's `markPositionFailed` is called on
the closed position; the returned error is the swap error, not an
invalid-state error. -/
theorem executeBuyback_closed_position_not_rejected :
    closedPosition.status = PositionStatus.CLOSED ∧
    (executeBuyback failingSwap closedPosition (1/20)).1.error =
      some "Swap execution failed: Insufficient liquidity" ∧
    (executeBuyback failingSwap closedPosition (1/20)).2.head? =
      some (Effect.swapExecCall "GUSDC|Unit|none|none" "GALA|Unit|none|none" 2000) ∧
    Effect.markPositionFailedCall 8
        "Buyback failed: Swap execution failed: Insufficient liquidity" ∈
      (executeBuyback failingSwap closedPosition (1/20)).2 := by
  refine ⟨rfl, rfl, rfl, ?_⟩
  simp [executeBuyback, closedPosition, samplePosition, failingSwap]

/-- C2 amended: `executeBuyback` performs no status validation at all —
its behaviour (outcome and repository/network effects) is identical for
every `position.status`, so a non-`OPEN` position is processed exactly
like an `OPEN` one instead of failing with `InvalidState`. -/
theorem executeBuyback_independent_of_status
    (swapExec : String → String → ℚ → SwapResult) (position : Position)
    (s₁ s₂ : PositionStatus) (currentPrice : ℚ) :
    executeBuyback swapExec { position with status := s₁ } currentPrice =
      executeBuyback swapExec { position with status := s₂ } currentPrice := rfl

/-- C3: the claim says `calculatePnLPercentage` accepts every
`currentPrice ≥ 0` including zero, but the source's falsy guard
`!currentPrice` makes `currentPrice = 0` throw
"Current price must be non-negative" — even though zero is
non-negative. -/
theorem calculatePnLPercentage_rejects_zero_current_price :
    calculatePnLPercentage 100 0 =
      Except.error "Current price must be non-negative" ∧
    calculatePnLPercentage 100 1 = Except.ok (-99) := by
  constructor
  · rfl
  · norm_num [calculatePnLPercentage]

/-- C6: the claim (and the repository's own test expecting
"Cannot create pool of same tokens") requires same-asset swaps to fail
fast before any network call, but the source's `getQuote` has no
same-asset guard: for `fromToken = toToken = GALA` it issues the
`quoteExactInput` network call and even returns success when the
quoting client answers. -/
theorem getQuote_same_asset_issues_network_call :
    (getQuote true sampleQuoting galaToken galaToken 10).2 =
      [Effect.quoteNetworkCall galaToken galaToken 10] ∧
    (getQuote true sampleQuoting galaToken galaToken 10).1.success = true := by
  constructor
  · rfl
  · rfl

/-- C9: with an empty open-position list, `monitorOpenPositions`
returns immediately with `success = true`, all counters zero, an empty
results list and no error — a normal, non-error outcome — for every
price-oracle state and every checker. -/
theorem monitorOpenPositions_empty_normal_outcome
    (priceOracleAvailable : Bool)
    (check : Position → Except String (CheckResult × List Effect)) :
    monitorOpenPositions (Except.ok []) priceOracleAvailable check =
      { success := true, error := none,
        message := some "No open positions to monitor",
        positionsChecked := 0, buybacksExecuted := 0, buybacksFailed := 0,
        results := [] } := rfl

/-- C4: when the price fetch fails, `checkPositionForBuyback` returns
`buybackExecuted = false`, `buybackFailed = true` with an error
message, and issues no repository or network effect at all — in
particular no `updatePositionRetry`, so the position record (status,
retry count, every field) is untouched. -/
theorem checkPositionForBuyback_price_failure_no_mutation
    (oracle : String → PriceData)
    (swapExec : String → String → ℚ → SwapResult) (position : Position)
    (h : (oracle position.gala_symbol).success = false) :
    (checkPositionForBuyback oracle swapExec position).1.buybackExecuted = false ∧
    (checkPositionForBuyback oracle swapExec position).1.buybackFailed = true ∧
    (checkPositionForBuyback oracle swapExec position).1.error =
      some ("Failed to get current price: " ++ (oracle position.gala_symbol).error) ∧
    (checkPositionForBuyback oracle swapExec position).2 = [] := by
  unfold checkPositionForBuyback
  simp [h, checkFailureResult]

/-- C4 witness: a concrete `OPEN` position checked against an oracle
that fails with "HTTP 500" is reported unresolved with no effect
issued. -/
theorem checkPositionForBuyback_price_failure_no_mutation_witness :
    (failOracle samplePosition.gala_symbol).success = false ∧
    (checkPositionForBuyback failOracle failingSwap samplePosition).1.buybackFailed = true ∧
    (checkPositionForBuyback failOracle failingSwap samplePosition).2 = [] :=
  ⟨rfl,
   (checkPositionForBuyback_price_failure_no_mutation failOracle failingSwap
      samplePosition rfl).2.1,
   (checkPositionForBuyback_price_failure_no_mutation failOracle failingSwap
      samplePosition rfl).2.2.2⟩

/-- C7 counterexample: the claim's "if and only if" fails — here the
repository load succeeds (it returns one open position), yet the
summary has `success = false`, because `ServiceManager.get` found no
price-oracle service and the resulting throw lands in the same outer
`catch`. -/
theorem monitorOpenPositions_success_false_without_load_failure :
    (monitorOpenPositions (Except.ok [samplePosition]) false unreachedCheck).success = false ∧
    (monitorOpenPositions (Except.ok [samplePosition]) false unreachedCheck).error =
      some "PriceOracleService not available for position monitoring" ∧
    (monitorOpenPositions (Except.ok [samplePosition]) false unreachedCheck).positionsChecked = 0 :=
  ⟨rfl, rfl, rfl⟩

/-- C7 amended: `monitorOpenPositions` is total (the embedding is a
plain function — every throw of the source body is caught), and its
summary has `success = false` exactly when the initial load of the
open positions fails, or when the loaded list is non-empty and the
price-oracle service is unavailable; per-position check failures never
make it false. -/
theorem monitorOpenPositions_success_false_iff
    (loadResult : Except String (List Position)) (priceOracleAvailable : Bool)
    (check : Position → Except String (CheckResult × List Effect)) :
    (monitorOpenPositions loadResult priceOracleAvailable check).success = false ↔
      ((∃ e, loadResult = Except.error e) ∨
       (∃ ps, loadResult = Except.ok ps ∧ ps ≠ [] ∧ priceOracleAvailable = false)) := by
  cases loadResult with
  | error e => simp [monitorOpenPositions]
  | ok ps =>
      by_cases hps : ps.isEmpty
      · have : ps = [] := List.isEmpty_iff.mp hps
        subst this
        simp [monitorOpenPositions]
      · have hne : ps ≠ [] := fun hcontra => hps (by simp [hcontra])
        cases priceOracleAvailable with
        | false => simp [monitorOpenPositions, hps, hne]
        | true => simp [monitorOpenPositions, hps, hne]

/-- C8: for any non-empty loaded list and any per-position checker
(including checkers that throw), the batch never aborts: the summary is
`success = true`, `positionsChecked` equals the number of loaded
positions, the results list has exactly the per-position records in
order — a thrown check contributes `monitorErrorRecord` (an error
record with `buybackFailed = true`) — and `buybacksFailed` counts
exactly the failed checks, thrown ones included. -/
theorem monitorOpenPositions_isolates_position_failures
    (ps : List Position)
    (check : Position → Except String (CheckResult × List Effect))
    (hne : ps ≠ []) :
    (monitorOpenPositions (Except.ok ps) true check).success = true ∧
    (monitorOpenPositions (Except.ok ps) true check).positionsChecked = ps.length ∧
    (monitorOpenPositions (Except.ok ps) true check).results =
      ps.map (checkRecord check) ∧
    (monitorOpenPositions (Except.ok ps) true check).buybacksFailed =
      ps.countP (fun p => isFailedCheck (check p)) := by
  have hps : ps.isEmpty = false := by
    cases ps with
    | nil => exact absurd rfl hne
    | cons a l => rfl
  unfold monitorOpenPositions
  simp only [hps, Bool.false_eq_true, if_false, Bool.true_eq_false]
  refine ⟨trivial, trivial, ?_, ?_⟩
  · simpa using monitorFold_results check ps ⟨[], 0, 0⟩
  · simpa using monitorFold_failed check ps ⟨[], 0, 0⟩

/-- A second open position, used for batch fixtures. -/
def secondPosition : Position :=
  { samplePosition with id := 9 }

/-- A checker that throws on `samplePosition` (id 7) and returns the
embedded check for every other position. -/
def throwingCheck : Position → Except String (CheckResult × List Effect) :=
  fun p =>
    if p.id = 7 then .error "boom"
    else .ok (checkPositionForBuyback failOracle failingSwap p)

/-- C8 witness: a batch of two positions whose first check throws still
checks both, reports `positionsChecked = 2` and counts both failed
checks. -/
theorem monitorOpenPositions_isolates_position_failures_witness :
    ([samplePosition, secondPosition] ≠ ([] : List Position)) ∧
    (monitorOpenPositions (Except.ok [samplePosition, secondPosition]) true
        throwingCheck).positionsChecked = 2 ∧
    (monitorOpenPositions (Except.ok [samplePosition, secondPosition]) true
        throwingCheck).success = true :=
  ⟨List.cons_ne_nil _ _,
   (monitorOpenPositions_isolates_position_failures
      [samplePosition, secondPosition] throwingCheck
      (List.cons_ne_nil _ _)).2.1,
   (monitorOpenPositions_isolates_position_failures
      [samplePosition, secondPosition] throwingCheck
      (List.cons_ne_nil _ _)).1⟩

/-- C10: every summary with `success = true` has exactly one result
entry per loaded position (`results.length = positionsChecked`) and
satisfies `buybacksExecuted + buybacksFailed ≤ positionsChecked`,
because the loop's `else if` lets each position feed at most one of
the two counters. -/
theorem monitorOpenPositions_summary_invariant
    (loadResult : Except String (List Position)) (priceOracleAvailable : Bool)
    (check : Position → Except String (CheckResult × List Effect))
    (h : (monitorOpenPositions loadResult priceOracleAvailable check).success = true) :
    (monitorOpenPositions loadResult priceOracleAvailable check).results.length =
      (monitorOpenPositions loadResult priceOracleAvailable check).positionsChecked ∧
    (monitorOpenPositions loadResult priceOracleAvailable check).buybacksExecuted +
        (monitorOpenPositions loadResult priceOracleAvailable check).buybacksFailed ≤
      (monitorOpenPositions loadResult priceOracleAvailable check).positionsChecked := by
  cases loadResult with
  | error e => exact absurd h (by simp [monitorOpenPositions])
  | ok ps =>
      by_cases hps : ps.isEmpty
      · have : ps = [] := List.isEmpty_iff.mp hps
        subst this
        exact ⟨rfl, Nat.le_refl 0⟩
      · have hps' : ps.isEmpty = false := by
          cases hb : ps.isEmpty with
          | false => rfl
          | true => exact absurd hb hps
        cases priceOracleAvailable with
        | false => exact absurd h (by simp [monitorOpenPositions, hps'])
        | true =>
            unfold monitorOpenPositions
            simp only [hps', Bool.false_eq_true, if_false, Bool.true_eq_false]
            constructor
            · rw [monitorFold_results]
              simp
            · rw [monitorFold_executed, monitorFold_failed]
              simp only [Nat.zero_add]
              exact countP_pair_le_length _ _
                (fun p hp => by
                  cases hc : check p with
                  | error e => simp [isExecutedCheck, hc] at hp
                  | ok checkRun =>
                      simp [isExecutedCheck, hc] at hp
                      simp [isFailedCheck, hc, hp]) ps

/-- C10 witness: the invariant instantiated on a concrete successful
batch of two positions. -/
theorem monitorOpenPositions_summary_invariant_witness :
    (monitorOpenPositions (Except.ok [samplePosition, secondPosition]) true
        throwingCheck).success = true ∧
    (monitorOpenPositions (Except.ok [samplePosition, secondPosition]) true
          throwingCheck).buybacksExecuted +
        (monitorOpenPositions (Except.ok [samplePosition, secondPosition]) true
          throwingCheck).buybacksFailed ≤
      (monitorOpenPositions (Except.ok [samplePosition, secondPosition]) true
        throwingCheck).positionsChecked :=
  ⟨by rfl,
   (monitorOpenPositions_summary_invariant
      (Except.ok [samplePosition, secondPosition]) true throwingCheck (by rfl)).2⟩

lemma shouldBuyback_reason_eq_reference (e c pt lt : ℚ) :
    (shouldBuyback ((c - e) / e * 100) (pt * 100) (lt * 100)).reason =
      referenceBuybackDecision e c pt lt := by
  unfold shouldBuyback referenceBuybackDecision
  split_ifs <;> rfl

/-- C5 amended: for every position with `entry_price > 0` and every
successful price fetch with a strictly positive price, the decision
recorded by `checkPositionForBuyback` (computed by
`shouldBuyback(pnl, profit_threshold*100, loss_threshold*100)`) equals
the reference decision: `PROFIT_TARGET` when
`pnl ≥ profit_threshold × 100` (profit checked first, inclusive), else
`STOP_LOSS` when `pnl ≤ loss_threshold × 100` (inclusive), else
`HOLD`.  The claim's original bound `currentPrice ≥ 0` had to be
strengthened to `> 0`: at price zero the source throws instead of
deciding (see the counterexample). -/
theorem checkPositionForBuyback_decision_matches_reference
    (oracle : String → PriceData)
    (swapExec : String → String → ℚ → SwapResult) (position : Position)
    (hs : (oracle position.gala_symbol).success = true)
    (he : 0 < position.entry_price)
    (hc : 0 < (oracle position.gala_symbol).price) :
    (checkPositionForBuyback oracle swapExec position).1.decision =
      some (referenceBuybackDecision position.entry_price
        (oracle position.gala_symbol).price position.profit_threshold
        position.loss_threshold) := by
  have h1 : ¬(position.entry_price = 0 ∨ position.entry_price ≤ 0) :=
    fun hor => hor.elim (fun h0 => he.ne' h0)
      (fun hle => absurd he (not_lt.mpr hle))
  have h2 : ¬((oracle position.gala_symbol).price = 0 ∨
      (oracle position.gala_symbol).price < 0) :=
    fun hor => hor.elim (fun h0 => hc.ne' h0)
      (fun hlt => absurd hlt (not_lt.mpr hc.le))
  have hpnl : calculatePnLPercentage position.entry_price
      (oracle position.gala_symbol).price =
      Except.ok (((oracle position.gala_symbol).price - position.entry_price) /
        position.entry_price * 100) := by
    unfold calculatePnLPercentage
    rw [if_neg h1, if_neg h2]
  unfold checkPositionForBuyback
  simp only [hs, Bool.true_eq_false, if_false, hpnl]
  rw [← shouldBuyback_reason_eq_reference position.entry_price
    (oracle position.gala_symbol).price position.profit_threshold
    position.loss_threshold]
  set d := shouldBuyback
    (((oracle position.gala_symbol).price - position.entry_price) /
      position.entry_price * 100)
    (position.profit_threshold * 100) (position.loss_threshold * 100) with hd
  by_cases hbuy : d.shouldBuy = true
  · simp only [hbuy, if_true]
    by_cases hsw : (executeBuyback swapExec position
        (oracle position.gala_symbol).price).1.success = true
    · simp only [hsw, if_true]
      cases calculateFinalPnL position.entry_amount
          ((executeBuyback swapExec position
            (oracle position.gala_symbol).price).1.finalGalaAmount.getD 0) with
      | ok fp => rfl
      | error e => rfl
    · simp only [Bool.not_eq_true] at hsw
      simp only [hsw, Bool.false_eq_true, if_false]
  · simp only [Bool.not_eq_true] at hbuy
    simp only [hbuy, Bool.false_eq_true, if_false]

/-- C5 counterexample: at `currentPrice = 0` (allowed by the claim's
`currentPrice ≥ 0`) the reference decision is `STOP_LOSS`
(`pnl = -100 ≤ lossThreshold × 100`), but the source produces no
decision at all: `calculatePnLPercentage` throws on the falsy price and
the check lands in the outer `catch` with an error record. -/
theorem checkPositionForBuyback_zero_price_no_decision :
    (checkPositionForBuyback zeroPriceOracle failingSwap samplePosition).1.decision = none ∧
    (checkPositionForBuyback zeroPriceOracle failingSwap samplePosition).1.buybackFailed = true ∧
    referenceBuybackDecision samplePosition.entry_price 0
      samplePosition.profit_threshold samplePosition.loss_threshold =
      Reason.STOP_LOSS := by
  have hz : calculatePnLPercentage samplePosition.entry_price 0 =
      Except.error "Current price must be non-negative" := by
    unfold calculatePnLPercentage samplePosition
    norm_num
  refine ⟨?_, ?_, ?_⟩
  · unfold checkPositionForBuyback
    simp [zeroPriceOracle, hz, checkFailureResult]
  · unfold checkPositionForBuyback
    simp [zeroPriceOracle, hz, checkFailureResult]
  · unfold referenceBuybackDecision samplePosition
    norm_num

/-- C5 witness: `samplePosition` (entry 0.05, thresholds +5 % and -2 %)
against a successful price of 0.053: the recorded decision matches the
reference decision (a +6 % move, `PROFIT_TARGET`). -/
theorem checkPositionForBuyback_decision_matches_reference_witness :
    0 < samplePosition.entry_price ∧
    0 < (profitOracle samplePosition.gala_symbol).price ∧
    (checkPositionForBuyback profitOracle failingSwap samplePosition).1.decision =
      some (referenceBuybackDecision samplePosition.entry_price
        (profitOracle samplePosition.gala_symbol).price
        samplePosition.profit_threshold samplePosition.loss_threshold) :=
  ⟨by norm_num [samplePosition], by norm_num [profitOracle],
   checkPositionForBuyback_decision_matches_reference profitOracle failingSwap
     samplePosition rfl (by norm_num [samplePosition]) (by norm_num [profitOracle])⟩

end GalaBot
